import Mathlib

/-!
Shallow embedding of the holiday-party-planner core (models and services
under `src/app/`) together with theorems checking the specification's
claims about tokens, invitations, RSVPs and the potluck claim engine.

Conventions of the embedding:
* Python `datetime` values are modelled as `Nat` timestamps.
* Python `None`-able fields are `Option _`; Python truthiness of strings
  and integers is made explicit (`pyTruthyStr`, `pyTruthyNat`).
* The ORM session is modelled by explicit lists of rows threaded through
  the service functions; autoincrement ids are threaded as counters.
* `secrets.token_urlsafe` is modelled by an ambient stream of random
  strings `Nat → String`, one entry per successive call.
* The `itsdangerous.URLSafeTimedSerializer` (one fixed secret key) is
  modelled abstractly: a signed token records its payload, the salt it
  was signed with, and its signing time; `loads` succeeds exactly when
  the salt matches and the signature age is within `max_age`.
-/

namespace HPP

/-- Python truthiness of an optional string (`None` and `""` are falsy). -/
def pyTruthyStr : Option String → Bool
  | none => false
  | some s => s ≠ ""

/-- Python truthiness of an optional integer (`None` and `0` are falsy). -/
def pyTruthyNat : Option Nat → Bool
  | none => false
  | some n => n ≠ 0

/-- A value stored in a token payload dict (ids or strings). -/
inductive PyValue where
  | int (n : Nat)
  | str (s : String)
  deriving Repr, DecidableEq

/-- A Python dict used as a token payload: association list, first key wins. -/
abbrev Payload := List (String × PyValue)

/-- `d.get(k)`: first binding of `k`, or `None`. -/
def dictGet (d : Payload) (k : String) : Option PyValue :=
  (d.find? (fun kv => kv.1 = k)).map (fun kv => kv.2)

/-- A token produced by `URLSafeTimedSerializer(SECRET_KEY).dumps(payload, salt)`.
It records the signed payload, the salt namespace, and the signing time. -/
structure SignedToken where
  payload : Payload
  salt : String
  signedAt : Nat
  deriving Repr, DecidableEq

/-- `serializer.dumps(payload, salt=salt)` at time `now`. -/
def serializerDumps (payload : Payload) (salt : String) (now : Nat) : SignedToken :=
  { payload := payload, salt := salt, signedAt := now }

/-- `serializer.loads(token, salt=salt, max_age=maxAge)` at time `now`:
returns the payload iff the salt namespace matches and, when `max_age`
is given, the signature is no older than it; otherwise it raises
(`BadSignature` / `SignatureExpired`), modelled as `none`. -/
def serializerLoads (token : SignedToken) (salt : String) (maxAge : Option Nat)
    (now : Nat) : Option Payload :=
  let ageOk : Bool :=
    match maxAge with
    | none => true
    | some a => now - token.signedAt ≤ a
  if token.salt = salt ∧ ageOk then some token.payload else none

/-- App configuration (`config.py`): `TOKEN_EXPIRATION_DAYS`. -/
structure Config where
  TOKEN_EXPIRATION_DAYS : Nat
  deriving Repr, DecidableEq

/-! ### Person and Household (`src/app/models/person.py`, `household.py`) -/

/-- The fields of `Person` used by the claims under study. -/
structure Person where
  id : Nat
  first_name : String
  last_name : Option String := none
  email : Option String := none
  deriving Repr, DecidableEq

/-- `Person.full_name`. -/
def Person.full_name (p : Person) : String :=
  match p.last_name with
  | some l => if l ≠ "" then p.first_name ++ " " ++ l else p.first_name
  | none => p.first_name

/-- A `Household` with its `active_members` query materialized
(members of memberships whose `left_at` is null). -/
structure Household where
  id : Nat
  active_members : List Person
  deriving Repr, DecidableEq

/-- `Household.contacts_with_email`: active members with a (truthy) email. -/
def Household.contacts_with_email (h : Household) : List Person :=
  h.active_members.filter (fun m => pyTruthyStr m.email)

/-! ### Event (`src/app/models/event.py`), fields used by the claims -/

structure Event where
  id : Nat
  uuid : String
  title : String
  deriving Repr, DecidableEq

/-! ### EventInvitation (`src/app/models/event_admin.py`) -/

structure EventInvitation where
  id : Nat
  event_id : Nat
  household_id : Nat
  invitation_token : Option SignedToken := none
  token_expires_at : Option Nat := none
  short_token : Option String := none
  deriving Repr, DecidableEq

/-- `EventInvitation.generate_token` (event_admin.py lines 106-117):
signs `{event_id, household_id}` with salt `"rsvp-token"`, stores the
token and its row-level expiry, and returns the updated row together
with the token. -/
def EventInvitation.generate_token (cfg : Config) (now : Nat)
    (inv : EventInvitation) : EventInvitation × SignedToken :=
  let token := serializerDumps
    [("event_id", PyValue.int inv.event_id),
     ("household_id", PyValue.int inv.household_id)]
    "rsvp-token" now
  ({ inv with
      invitation_token := some token,
      token_expires_at := some (now + cfg.TOKEN_EXPIRATION_DAYS * 86400) },
   token)

/-- `EventInvitation.verify_token` (event_admin.py lines 157-173): loads
with salt `"rsvp-token"`; any exception yields `None`. -/
def EventInvitation.verify_token (token : SignedToken) (maxAge : Option Nat)
    (now : Nat) : Option Payload :=
  serializerLoads token "rsvp-token" maxAge now

/-! ### GuestReferral (`src/app/models/guest_referral.py`) -/

structure GuestReferral where
  id : Nat
  event_id : Nat
  referrer_person_id : Nat
  referred_person_id : Nat
  invitation_token : Option SignedToken := none
  token_expires_at : Option Nat := none
  short_token : Option String := none
  deriving Repr, DecidableEq

/-- `GuestReferral.generate_token` (guest_referral.py lines 83-100): signs
`{event_id, referred_person_id, referral_id, type: "guest_referral"}`
with salt `"guest-referral-token"`. -/
def GuestReferral.generate_token (cfg : Config) (now : Nat)
    (ref : GuestReferral) : GuestReferral × SignedToken :=
  let token := serializerDumps
    [("event_id", PyValue.int ref.event_id),
     ("referred_person_id", PyValue.int ref.referred_person_id),
     ("referral_id", PyValue.int ref.id),
     ("type", PyValue.str "guest_referral")]
    "guest-referral-token" now
  ({ ref with
      invitation_token := some token,
      token_expires_at := some (now + cfg.TOKEN_EXPIRATION_DAYS * 86400) },
   token)

/-- `GuestReferral.verify_token` (guest_referral.py lines 111-136): loads
with salt `"guest-referral-token"` and `max_age = TOKEN_EXPIRATION_DAYS
* 24 * 3600`, then additionally requires the payload's `type`
discriminator to be `"guest_referral"`. -/
def GuestReferral.verify_token (cfg : Config) (now : Nat)
    (token : SignedToken) : Option Payload :=
  let maxAge := cfg.TOKEN_EXPIRATION_DAYS * 24 * 3600
  match serializerLoads token "guest-referral-token" (some maxAge) now with
  | none => none
  | some data =>
      if dictGet data "type" = some (PyValue.str "guest_referral") then
        some data
      else
        none

/-- C1: a token signed by `GuestReferral.generate_token` (salt
`"guest-referral-token"`, payload type `"guest_referral"`) is rejected by
`EventInvitation.verify_token`, and a token signed by
`EventInvitation.generate_token` (salt `"rsvp-token"`) is rejected by
`GuestReferral.verify_token`: cross-type presentation always returns
`None`, for every payload, configuration, time and max-age. -/
theorem verify_token_rejects_cross_type (cfg cfg' : Config) (now now' : Nat)
    (maxAge : Option Nat) (ref : GuestReferral) (inv : EventInvitation) :
    EventInvitation.verify_token (ref.generate_token cfg now).2 maxAge now' = none ∧
    GuestReferral.verify_token cfg' now' (inv.generate_token cfg now).2 = none := by
  constructor
  · simp [EventInvitation.verify_token, GuestReferral.generate_token,
      serializerDumps, serializerLoads]
  · simp [GuestReferral.verify_token, EventInvitation.generate_token,
      serializerDumps, serializerLoads]

/-! ### RSVP (`src/app/models/rsvp.py`) -/

/-- A row of the `rsvps` table. `household_id` is the value the
application code assigns to the attribute (the column's declared NOT
NULL constraint is transcribed separately as `rsvpHouseholdIdNullable`). -/
structure RSVP where
  id : Nat
  event_id : Nat
  person_id : Nat
  household_id : Option Nat
  status : String := "no_response"
  responded_at : Option Nat := none
  notes : Option String := none
  updated_at : Nat := 0
  updated_by_person_id : Option Nat := none
  updated_by_host : Bool := false
  deriving Repr, DecidableEq

/-- `nullable=False` on the `rsvps.household_id` column
(rsvp.py lines 14-16). -/
def rsvpHouseholdIdNullable : Bool := false

/-- Whether an `RSVP` row satisfies the NOT NULL constraint declared on
`household_id`: insertable iff the column is nullable or the value is
present. -/
def rsvpRowInsertable (r : RSVP) : Bool :=
  rsvpHouseholdIdNullable || r.household_id.isSome

/-- The `valid_statuses` list of `RSVP.update_status`. -/
def validStatuses : List String :=
  ["attending", "not_attending", "maybe", "no_response"]

/-- `RSVP.update_status` (rsvp.py lines 70-94) at time `now`: rejects a
status outside the enum with a `ValueError` before any mutation;
otherwise sets the status, overwrites notes only when given, derives
`responded_at` from the new status, stamps `updated_at`, and
unconditionally overwrites the audit pair with the supplied arguments
(which the Python signature defaults to `None` / `False`). -/
def RSVP.update_status (r : RSVP) (new_status : String) (notes : Option String)
    (updated_by_person_id : Option Nat) (updated_by_host : Bool)
    (now : Nat) : Except String RSVP :=
  if ¬ validStatuses.contains new_status then
    Except.error "Invalid status. Must be one of: attending, not_attending, maybe, no_response"
  else
    Except.ok
      { r with
          status := new_status,
          notes := if notes.isSome then notes else r.notes,
          responded_at := if new_status ≠ "no_response" then some now else none,
          updated_at := now,
          updated_by_person_id := updated_by_person_id,
          updated_by_host := updated_by_host }

/-- C4: whenever `RSVP.update_status` succeeds — in particular after each
call of any sequence of calls with valid status values, whatever the
prior state of the row — the resulting row has `responded_at` non-null
iff its status is not `no_response`; it is (re)set when moving to or
re-submitting `attending`/`not_attending`/`maybe` and cleared when the
status returns to `no_response`. -/
theorem update_status_responded_at_iff_responded (r : RSVP) (s : String)
    (notes : Option String) (pid : Option Nat) (host : Bool) (now : Nat)
    (r' : RSVP) (h : r.update_status s notes pid host now = Except.ok r') :
    r'.responded_at.isSome = true ↔ r'.status ≠ "no_response" := by
  unfold RSVP.update_status at h
  by_cases hval : s ∈ validStatuses
  · simp [hval] at h
    subst h
    by_cases hs : s = "no_response" <;> simp [hs]
  · simp [hval] at h

/-- Witness for C4: updating a fresh RSVP to `attending` succeeds and the
resulting row satisfies the `responded_at` invariant. -/
theorem update_status_responded_at_iff_responded_witness :
    ∃ r', ({ id := 1, event_id := 1, person_id := 1, household_id := some 1 :
        RSVP }).update_status "attending" none none false 42 = Except.ok r' ∧
      (r'.responded_at.isSome = true ↔ r'.status ≠ "no_response") := by
  refine ⟨_, rfl, ?_⟩
  exact update_status_responded_at_iff_responded _ "attending" none none false 42 _ rfl

/-! ### Notification dispatch (`src/app/services/notification_service.py`)

Outbound e-mail is an external sink; the model records each attempted
send as an `EmailRecord` (the rendered template body is out of scope). -/

structure EmailRecord where
  to_email : String
  to_name : String
  subject : String
  deriving Repr, DecidableEq

/-- `NotificationService.send_household_rsvp_confirmation`
(notification_service.py lines 439-487, marked DEPRECATED in its own
docstring): sends one copy of the combined household confirmation to
every household contact with an email address, regardless of which
RSVPs changed; returns whether at least one send succeeded. The
`rsvps` argument only feeds the rendered template body and the
invitation looked up for the dashboard link, which are elided here. -/
def NotificationService.send_household_rsvp_confirmation (event : Event)
    (household : Household) (rsvps : List RSVP) : Bool × List EmailRecord :=
  let _ := rsvps
  let contacts := household.contacts_with_email
  if contacts.isEmpty then (false, [])
  else
    let emails := contacts.map (fun c =>
      { to_email := c.email.getD "", to_name := c.full_name,
        subject := "RSVP Confirmed for " ++ event.title : EmailRecord })
    (decide (0 < emails.length), emails)

/-! ### RSVPService (`src/app/services/rsvp_service.py`) -/

/-- One entry of the `rsvp_data` dict passed to `update_household_rsvps`:
`data.get("status", "no_response")` and `data.get("notes")`. -/
structure RsvpFormData where
  status : Option String
  notes : Option String
  deriving Repr, DecidableEq

/-- The per-person loop of `RSVPService.update_household_rsvps`
(rsvp_service.py lines 75-88): for each `(person_id, data)` pair, look
the row up by `(event_id, person_id, household_id)`; when found, apply
`RSVP.update_status` (propagating its `ValueError`), write the mutated
row back, and append it to `updated_rsvps`. -/
def updateHouseholdRsvpsGo (now : Nat) (event : Event) (household : Household) :
    List (Nat × RsvpFormData) → List RSVP → List RSVP →
    Except String (List RSVP × List RSVP)
  | [], rsvps, updated => Except.ok (rsvps, updated)
  | (pid, data) :: rest, rsvps, updated =>
    match rsvps.find? (fun r =>
        r.event_id == event.id && r.person_id == pid &&
        r.household_id == some household.id) with
    | none => updateHouseholdRsvpsGo now event household rest rsvps updated
    | some r =>
      match r.update_status (data.status.getD "no_response") data.notes
          none false now with
      | Except.error e => Except.error e
      | Except.ok r' =>
        updateHouseholdRsvpsGo now event household rest
          (rsvps.map (fun x => if x.id = r.id then r' else x))
          (updated ++ [r'])

/-- `RSVPService.update_household_rsvps` (rsvp_service.py lines 62-96):
runs the per-person loop, commits, and — whenever `updated_rsvps` is
non-empty — dispatches `send_household_rsvp_confirmation` for the whole
household. Returns the new `rsvps` table, the `updated_rsvps` list and
the dispatched emails. -/
def RSVPService.update_household_rsvps (now : Nat) (event : Event)
    (household : Household) (rsvp_data : List (Nat × RsvpFormData))
    (rsvps : List RSVP) :
    Except String (List RSVP × List RSVP × List EmailRecord) :=
  match updateHouseholdRsvpsGo now event household rsvp_data rsvps [] with
  | Except.error e => Except.error e
  | Except.ok (rsvps', updated) =>
    let emails :=
      if updated.isEmpty then []
      else (NotificationService.send_household_rsvp_confirmation
        event household updated).2
    Except.ok (rsvps', updated, emails)

/-- A successful `update_status` call with the defaulted audit arguments
(`updated_by_person_id=None`, `updated_by_host=False`) leaves exactly
those values on the row. -/
theorem update_status_default_audit (r : RSVP) (s : String)
    (notes : Option String) (now : Nat) (r' : RSVP)
    (h : r.update_status s notes none false now = Except.ok r') :
    r'.updated_by_host = false ∧ r'.updated_by_person_id = none := by
  unfold RSVP.update_status at h
  by_cases hval : s ∈ validStatuses
  · simp [hval] at h
    subst h
    exact ⟨rfl, rfl⟩
  · simp [hval] at h

/-- Every row the self-service loop appends to `updated_rsvps` carries the
defaulted audit pair. -/
theorem updateHouseholdRsvpsGo_audit (now : Nat) (event : Event)
    (household : Household) :
    ∀ (rsvp_data : List (Nat × RsvpFormData)) (rsvps updated : List RSVP)
      (out : List RSVP × List RSVP),
      updateHouseholdRsvpsGo now event household rsvp_data rsvps updated =
        Except.ok out →
      ∀ x ∈ out.2, x ∈ updated ∨
        (x.updated_by_host = false ∧ x.updated_by_person_id = none) := by
  intro rsvp_data
  induction rsvp_data with
  | nil =>
    intro rsvps updated out h x hx
    simp [updateHouseholdRsvpsGo] at h
    subst h
    exact Or.inl hx
  | cons hd rest ih =>
    intro rsvps updated out h x hx
    rw [updateHouseholdRsvpsGo] at h
    cases hfind : rsvps.find? (fun r =>
        r.event_id == event.id && r.person_id == hd.1 &&
        r.household_id == some household.id) with
    | none =>
      rw [hfind] at h
      dsimp only at h
      exact ih rsvps updated out h x hx
    | some r =>
      rw [hfind] at h
      dsimp only at h
      cases hupd : r.update_status (hd.2.status.getD "no_response") hd.2.notes
          none false now with
      | error e =>
        rw [hupd] at h
        dsimp only at h
        exact absurd h (by simp)
      | ok r' =>
        rw [hupd] at h
        dsimp only at h
        have := ih _ _ out h x hx
        rcases this with hmem | hgood
        · rcases List.mem_append.mp hmem with hmem' | hmem'
          · exact Or.inl hmem'
          · right
            have hx' : x = r' := by simpa using hmem'
            rw [hx']
            exact update_status_default_audit r _ _ now r' hupd
        · exact Or.inr hgood

/-- C10: `RSVP.update_status` unconditionally overwrites the audit pair
with its arguments, so every row touched by a self-service
`update_household_rsvps` submission — including a resubmission of the
same status — ends with `updated_by_host = False` and
`updated_by_person_id = None`, erasing any prior host attribution. -/
theorem update_household_rsvps_clears_host_attribution (now : Nat)
    (event : Event) (household : Household)
    (rsvp_data : List (Nat × RsvpFormData)) (rsvps : List RSVP)
    (out : List RSVP × List RSVP × List EmailRecord)
    (h : RSVPService.update_household_rsvps now event household rsvp_data
      rsvps = Except.ok out) :
    ∀ x ∈ out.2.1, x.updated_by_host = false ∧
      x.updated_by_person_id = none := by
  intro x hx
  unfold RSVPService.update_household_rsvps at h
  cases hgo : updateHouseholdRsvpsGo now event household rsvp_data rsvps []
      with
  | error e => rw [hgo] at h; exact absurd h (by simp)
  | ok pr =>
    rw [hgo] at h
    have hout : out.2.1 = pr.2 := by
      cases pr with
      | mk a b =>
        simp at h
        rw [← h]
    rw [hout] at hx
    have := updateHouseholdRsvpsGo_audit now event household rsvp_data rsvps
      [] pr hgo x hx
    simpa using this

/-- Witness for C10: a household member whose row was host-entered
(`updated_by_host = True`, `updated_by_person_id = 9`) resubmits the
same status through self-service; the resulting rows have the host
attribution erased. -/
theorem update_household_rsvps_clears_host_attribution_witness :
    ∃ out, RSVPService.update_household_rsvps 100 ⟨1, "u1", "Party"⟩
        ⟨1, [⟨1, "Alice", none, some "alice@example.com"⟩]⟩
        [(1, ⟨some "attending", none⟩)]
        [⟨1, 1, 1, some 1, "attending", some 10, none, 10, some 9, true⟩] =
        Except.ok out ∧
      ∀ x ∈ out.2.1, x.updated_by_host = false ∧
        x.updated_by_person_id = none := by
  cases hrun : RSVPService.update_household_rsvps 100 ⟨1, "u1", "Party"⟩
      ⟨1, [⟨1, "Alice", none, some "alice@example.com"⟩]⟩
      [(1, ⟨some "attending", none⟩)]
      [⟨1, 1, 1, some 1, "attending", some 10, none, 10, some 9, true⟩] with
  | error e =>
    have hne : (RSVPService.update_household_rsvps 100 ⟨1, "u1", "Party"⟩
        ⟨1, [⟨1, "Alice", none, some "alice@example.com"⟩]⟩
        [(1, ⟨some "attending", none⟩)]
        [⟨1, 1, 1, some 1, "attending", some 10, none, 10, some 9,
          true⟩]).toOption.isSome = true := by decide
    rw [hrun] at hne
    simp [Except.toOption] at hne
  | ok out =>
    exact ⟨out, rfl,
      update_household_rsvps_clears_host_attribution 100 _ _ _ _ out hrun⟩

/-- C2 (divergence witness): a one-member household (the member has an
email address) whose RSVP is already `attending` resubmits the same
status; `update_household_rsvps` nonetheless dispatches one combined
household confirmation email to that contact, although no status
changed. The repository's own tests
(`test_update_household_rsvps_no_email_on_same_status`) require zero
sends here, via `send_individual_rsvp_confirmations`. -/
theorem update_household_rsvps_resubmission_still_notifies :
    (RSVPService.update_household_rsvps 100 ⟨1, "u1", "Party"⟩
        ⟨1, [⟨1, "Alice", none, some "alice@example.com"⟩]⟩
        [(1, ⟨some "attending", none⟩)]
        [⟨1, 1, 1, some 1, "attending", some 10, none, 10, none, false⟩]).toOption.map
      (fun out => (out.2.1.map RSVP.status, out.2.2)) =
    some (["attending"],
      [⟨"alice@example.com", "Alice", "RSVP Confirmed for Party"⟩]) := by
  rfl

/-! ### InvitationService (`src/app/services/invitation_service.py`) and
`RSVPService.create_rsvps_for_household` (rsvp_service.py lines 11-40) -/

/-- The slice of the database touched by invitation creation. -/
structure Db where
  invitations : List EventInvitation
  rsvps : List RSVP
  next_invitation_id : Nat
  next_rsvp_id : Nat
  deriving Repr, DecidableEq

/-- The member loop of `RSVPService.create_rsvps_for_household`: for each
active member, insert a `no_response` RSVP unless a row for
`(event_id, person_id)` already exists. -/
def createRsvpsGo (now eid hid : Nat) :
    List Person → Db → List RSVP → Db × List RSVP
  | [], db, created => (db, created)
  | m :: rest, db, created =>
    match db.rsvps.find? (fun r => r.event_id == eid && r.person_id == m.id)
        with
    | some _ => createRsvpsGo now eid hid rest db created
    | none =>
      let r : RSVP :=
        { id := db.next_rsvp_id, event_id := eid, person_id := m.id,
          household_id := some hid, status := "no_response",
          responded_at := none, notes := none, updated_at := now,
          updated_by_person_id := none, updated_by_host := false }
      createRsvpsGo now eid hid rest
        { db with rsvps := db.rsvps ++ [r],
                  next_rsvp_id := db.next_rsvp_id + 1 }
        (created ++ [r])

/-- `RSVPService.create_rsvps_for_household`: iterate the household's
active members, returning the grown table and the created rows. -/
def RSVPService.create_rsvps_for_household (now : Nat) (event : Event)
    (household : Household) (db : Db) : Db × List RSVP :=
  createRsvpsGo now event.id household.id household.active_members db []

/-- The `filter_by(event_id=..., household_id=...)` lookup predicate of
`create_invitation`. -/
def invitationMatches (event : Event) (household : Household)
    (i : EventInvitation) : Bool :=
  i.event_id == event.id && i.household_id == household.id

/-- The invitation row freshly constructed and token-signed by the
no-existing-row branch of `create_invitation`. -/
def freshInvitation (cfg : Config) (now : Nat) (event : Event)
    (household : Household) (db : Db) : EventInvitation :=
  (EventInvitation.generate_token cfg now
    { id := db.next_invitation_id, event_id := event.id,
      household_id := household.id }).1

/-- `InvitationService.create_invitation` (invitation_service.py lines
12-40): returns the existing `(event, household)` invitation unchanged
when there is one; otherwise inserts a fresh row, signs its long token,
and materializes the household's RSVP rows. -/
def InvitationService.create_invitation (cfg : Config) (now : Nat)
    (event : Event) (household : Household) (db : Db) :
    EventInvitation × Db :=
  match db.invitations.find? (invitationMatches event household) with
  | some existing => (existing, db)
  | none =>
    let inv := freshInvitation cfg now event household db
    let db1 := { db with invitations := db.invitations ++ [inv],
                         next_invitation_id := db.next_invitation_id + 1 }
    (inv, (RSVPService.create_rsvps_for_household now event household db1).1)

/-- Rows already in the table survive the RSVP-materialization loop. -/
theorem createRsvpsGo_mem_mono (now eid hid : Nat) :
    ∀ (members : List Person) (db : Db) (created : List RSVP) (r : RSVP),
      r ∈ db.rsvps → r ∈ (createRsvpsGo now eid hid members db created).1.rsvps := by
  intro members
  induction members with
  | nil => intro db created r hr; simpa [createRsvpsGo] using hr
  | cons m rest ih =>
    intro db created r hr
    rw [createRsvpsGo]
    cases hfind : db.rsvps.find? (fun r =>
        r.event_id == eid && r.person_id == m.id) with
    | some r0 => exact ih db created r hr
    | none =>
      dsimp only
      exact ih _ _ r (by simp [hr])

/-- Invitations are untouched by the RSVP-materialization loop. -/
theorem createRsvpsGo_invitations (now eid hid : Nat) :
    ∀ (members : List Person) (db : Db) (created : List RSVP),
      (createRsvpsGo now eid hid members db created).1.invitations =
        db.invitations := by
  intro members
  induction members with
  | nil => intro db created; simp [createRsvpsGo]
  | cons m rest ih =>
    intro db created
    rw [createRsvpsGo]
    cases hfind : db.rsvps.find? (fun r =>
        r.event_id == eid && r.person_id == m.id) with
    | some r0 => exact ih db created
    | none => exact ih _ _

/-- A row that answers the `(event_id, person_id)` lookup for member `m`
with the shape `create_rsvps_for_household` guarantees. -/
def goodRow (eid hid : Nat) (m : Person) (r : RSVP) : Prop :=
  r.event_id = eid ∧ r.person_id = m.id ∧ r.household_id = some hid ∧
    r.status = "no_response"

/-- After the member loop, every processed member has a matching
`no_response` row, provided every pre-existing row matching a member
already had that shape (vacuously true on a fresh invitation). -/
theorem createRsvpsGo_covers (now eid hid : Nat) :
    ∀ (members : List Person) (db : Db) (created : List RSVP),
      (∀ m ∈ members, ∀ r ∈ db.rsvps,
        (r.event_id == eid && r.person_id == m.id) = true → goodRow eid hid m r) →
      ∀ m ∈ members, ∃ r ∈ (createRsvpsGo now eid hid members db created).1.rsvps,
        goodRow eid hid m r := by
  intro members
  induction members with
  | nil => intro db created _ m hm; exact absurd hm (by simp)
  | cons m0 rest ih =>
    intro db created hpre m hm
    rw [createRsvpsGo]
    cases hfind : db.rsvps.find? (fun r =>
        r.event_id == eid && r.person_id == m0.id) with
    | some r0 =>
      dsimp only
      rcases List.mem_cons.mp hm with hm0 | hmrest
      · subst hm0
        have hr0mem : r0 ∈ db.rsvps := List.mem_of_find?_eq_some hfind
        have hr0p : (r0.event_id == eid && r0.person_id == m.id) = true := by
          have hp := List.find?_some hfind
          simpa using hp
        exact ⟨r0, createRsvpsGo_mem_mono now eid hid rest db created r0 hr0mem,
          hpre m (by simp) r0 hr0mem hr0p⟩
      · exact ih db created (fun m' hm' => hpre m' (by simp [hm'])) m hmrest
    | none =>
      dsimp only
      set rnew : RSVP :=
        { id := db.next_rsvp_id, event_id := eid, person_id := m0.id,
          household_id := some hid, status := "no_response",
          responded_at := none, notes := none, updated_at := now,
          updated_by_person_id := none, updated_by_host := false } with hrnew
      have hpre' : ∀ m' ∈ rest, ∀ r ∈ db.rsvps ++ [rnew],
          (r.event_id == eid && r.person_id == m'.id) = true →
          goodRow eid hid m' r := by
        intro m' hm' r hr hp
        rcases List.mem_append.mp hr with hold | hnew
        · exact hpre m' (by simp [hm']) r hold hp
        · have hr' : r = rnew := by simpa using hnew
          subst hr'
          simp only [hrnew, Bool.and_eq_true, beq_iff_eq] at hp
          exact ⟨rfl, hp.2.symm ▸ rfl, rfl, rfl⟩
      rcases List.mem_cons.mp hm with hm0 | hmrest
      · subst hm0
        refine ⟨rnew, ?_, ?_⟩
        · exact createRsvpsGo_mem_mono now eid hid rest _ _ rnew (by simp)
        · exact ⟨rfl, rfl, rfl, rfl⟩
      · exact ih _ _ hpre' m hmrest

/-- If a list has no `p`-match, appending a `p`-matching element makes it
the first match. -/
theorem find?_append_singleton {α : Type} (p : α → Bool) :
    ∀ (l : List α) (a : α), l.find? p = none → p a = true →
      (l ++ [a]).find? p = some a := by
  intro l
  induction l with
  | nil => intro a _ ha; simp [List.find?, ha]
  | cons x xs ih =>
    intro a hnone ha
    rw [List.find?] at hnone
    cases hpx : p x with
    | true => rw [hpx] at hnone; exact absurd hnone (by simp)
    | false =>
      rw [hpx] at hnone
      simpa [List.find?_cons, hpx] using ih a hnone ha

/-- C5: `create_invitation` is idempotent per `(event, household)` pair.
On a database with no invitation for the pair (and, as on a first call,
no RSVP rows for the household's members), the call creates an
invitation carrying a signed token, materializes a `no_response` RSVP
row (with the household reference) for every active member, and calling
it again returns the very same invitation row with the database
completely unchanged — no additional invitation and no additional RSVP
rows. -/
theorem create_invitation_idempotent (cfg : Config) (now : Nat)
    (event : Event) (household : Household) (db : Db)
    (hno : db.invitations.find? (invitationMatches event household) = none)
    (hfresh : ∀ m ∈ household.active_members, ∀ r ∈ db.rsvps,
      (r.event_id == event.id && r.person_id == m.id) = true → False) :
    (InvitationService.create_invitation cfg now event household db).1.invitation_token.isSome = true ∧
    (∀ m ∈ household.active_members,
      ∃ r ∈ (InvitationService.create_invitation cfg now event household db).2.rsvps,
        goodRow event.id household.id m r) ∧
    InvitationService.create_invitation cfg now event household
        (InvitationService.create_invitation cfg now event household db).2 =
      InvitationService.create_invitation cfg now event household db := by
  have hrun : InvitationService.create_invitation cfg now event household db =
      (freshInvitation cfg now event household db,
       (RSVPService.create_rsvps_for_household now event household
         { db with
             invitations := db.invitations ++
               [freshInvitation cfg now event household db],
             next_invitation_id := db.next_invitation_id + 1 }).1) := by
    unfold InvitationService.create_invitation
    rw [hno]
  refine ⟨?_, ?_, ?_⟩
  · rw [hrun]
    simp [freshInvitation, EventInvitation.generate_token]
  · intro m hm
    rw [hrun]
    dsimp only
    exact createRsvpsGo_covers now event.id household.id
      household.active_members _ []
      (fun m' hm' r hr hp => absurd hp (by
        intro hp'
        exact hfresh m' hm' r hr hp')) m hm
  · rw [hrun]
    dsimp only
    have hinvrows : (RSVPService.create_rsvps_for_household now event household
        { db with
            invitations := db.invitations ++
              [freshInvitation cfg now event household db],
            next_invitation_id := db.next_invitation_id + 1 }).1.invitations =
        db.invitations ++ [freshInvitation cfg now event household db] :=
      createRsvpsGo_invitations now event.id household.id _ _ _
    unfold InvitationService.create_invitation
    rw [hinvrows, find?_append_singleton (invitationMatches event household)
      db.invitations _ hno
      (by simp [invitationMatches, freshInvitation, EventInvitation.generate_token])]

/-- Witness for C5 at a concrete first call: empty database, a household
with one active member. -/
theorem create_invitation_idempotent_witness :
    (InvitationService.create_invitation ⟨90⟩ 7 ⟨1, "u1", "Party"⟩
        ⟨2, [⟨3, "Alice", none, none⟩]⟩ ⟨[], [], 10, 20⟩).1.invitation_token.isSome = true ∧
    (∀ m ∈ ([⟨3, "Alice", none, none⟩] : List Person),
      ∃ r ∈ (InvitationService.create_invitation ⟨90⟩ 7 ⟨1, "u1", "Party"⟩
          ⟨2, [⟨3, "Alice", none, none⟩]⟩ ⟨[], [], 10, 20⟩).2.rsvps,
        goodRow 1 2 m r) ∧
    InvitationService.create_invitation ⟨90⟩ 7 ⟨1, "u1", "Party"⟩
        ⟨2, [⟨3, "Alice", none, none⟩]⟩
        (InvitationService.create_invitation ⟨90⟩ 7 ⟨1, "u1", "Party"⟩
          ⟨2, [⟨3, "Alice", none, none⟩]⟩ ⟨[], [], 10, 20⟩).2 =
      InvitationService.create_invitation ⟨90⟩ 7 ⟨1, "u1", "Party"⟩
        ⟨2, [⟨3, "Alice", none, none⟩]⟩ ⟨[], [], 10, 20⟩ :=
  create_invitation_idempotent ⟨90⟩ 7 ⟨1, "u1", "Party"⟩
    ⟨2, [⟨3, "Alice", none, none⟩]⟩ ⟨[], [], 10, 20⟩ rfl
    (by intro m hm r hr hp; simp at hr)

/-! ### Host-override RSVP update: `RSVPService.update_rsvp_by_host`
(rsvp_service.py lines 151-180) and the `update_rsvp_by_host` route
(`src/app/routes/api.py` lines 99-181) -/

/-- A row of `event_admins` (event_admin.py lines 9-38). -/
structure EventAdmin where
  id : Nat
  event_id : Nat
  person_id : Option Nat
  household_id : Option Nat
  role : String := "organizer"
  removed_at : Option Nat := none
  deriving Repr, DecidableEq

/-- The tables the host-override route reads and writes. -/
structure RouteDb where
  events : List Event
  event_admins : List EventAdmin
  invitations : List EventInvitation
  rsvps : List RSVP
  deriving Repr, DecidableEq

/-- A JSON response from the route: success with the updated RSVP, or an
HTTP error status with its message. -/
inductive ApiResponse where
  | ok (rsvp : RSVP)
  | error (status : Nat) (msg : String)
  deriving Repr, DecidableEq

/-- The parsed request JSON (`data.get("status")`, `data.get("notes")`). -/
structure HostUpdateRequest where
  status : Option String
  notes : Option String
  deriving Repr, DecidableEq

/-- `RSVPService.update_rsvp_by_host`: applies `update_status` stamped
with the acting host and `updated_by_host=True`, commits, and
intentionally sends no guest-facing notification. -/
def RSVPService.update_rsvp_by_host (now : Nat) (rsvp : RSVP)
    (status : String) (host_person_id : Nat) (notes : Option String) :
    Except String RSVP :=
  rsvp.update_status status notes (some host_person_id) true now

/-- The `update_rsvp_by_host` route (api.py lines 99-181): session
authentication, event lookup by uuid (`first_or_404`), active-admin
check, RSVP lookup (`get_or_404`), the event-membership check, the
live-invitation check, body/status validation, then the service call.
Every early return leaves the database untouched. -/
def updateRsvpByHostRoute (now : Nat) (db : RouteDb)
    (session_person_id : Option Nat) (event_uuid : String) (rsvp_id : Nat)
    (body : Option HostUpdateRequest) : ApiResponse × RouteDb :=
  match session_person_id with
  | none => (ApiResponse.error 401 "Authentication required", db)
  | some person_id =>
    match db.events.find? (fun e => e.uuid == event_uuid) with
    | none => (ApiResponse.error 404 "Not Found", db)
    | some event =>
      if (db.event_admins.find? (fun a =>
            a.event_id == event.id && a.person_id == some person_id &&
            a.removed_at == none)).isSome = false then
        (ApiResponse.error 403
          "Permission denied. Only event admins can update RSVPs.", db)
      else
        match db.rsvps.find? (fun r => r.id == rsvp_id) with
        | none => (ApiResponse.error 404 "Not Found", db)
        | some rsvp =>
          if rsvp.event_id ≠ event.id then
            (ApiResponse.error 400 "RSVP does not belong to this event", db)
          else
            match db.invitations.find? (fun i =>
                i.event_id == event.id &&
                some i.household_id == rsvp.household_id) with
            | none =>
              (ApiResponse.error 400 "Household is not invited to this event",
               db)
            | some _ =>
              match body with
              | none => (ApiResponse.error 400 "Request body must be JSON", db)
              | some data =>
                if pyTruthyStr data.status = false then
                  (ApiResponse.error 400 "Status is required", db)
                else if validStatuses.contains (data.status.getD "") = false
                    then
                  (ApiResponse.error 400
                    "Invalid status. Must be one of: attending, not_attending, maybe, no_response",
                   db)
                else
                  match RSVPService.update_rsvp_by_host now rsvp
                      (data.status.getD "") person_id data.notes with
                  | Except.error e => (ApiResponse.error 400 e, db)
                  | Except.ok r' =>
                    let newRsvps :=
                      db.rsvps.map (fun x => if x.id = rsvp.id then r' else x)
                    (ApiResponse.ok r', { db with rsvps := newRsvps })

/-- C3: when the RSVP found for the request does not belong to the target
event, or its household holds no invitation to that event, the
host-override route answers with an error (4xx, never a success) and
returns the database — in particular the RSVP row — completely
untouched. -/
theorem update_rsvp_by_host_rejects_unauthorized (now : Nat) (db : RouteDb)
    (spid : Option Nat) (uuid : String) (rsvp_id : Nat)
    (body : Option HostUpdateRequest) (event : Event) (rsvp : RSVP)
    (hev : db.events.find? (fun e => e.uuid == uuid) = some event)
    (hr : db.rsvps.find? (fun r => r.id == rsvp_id) = some rsvp)
    (hbad : rsvp.event_id ≠ event.id ∨
      db.invitations.find? (fun i => i.event_id == event.id &&
        some i.household_id == rsvp.household_id) = none) :
    ∃ code msg, updateRsvpByHostRoute now db spid uuid rsvp_id body =
      (ApiResponse.error code msg, db) ∧ 400 ≤ code := by
  unfold updateRsvpByHostRoute
  cases spid with
  | none => exact ⟨401, "Authentication required", rfl, by norm_num⟩
  | some pid =>
    rw [hev]
    dsimp only
    by_cases hadmin : (db.event_admins.find? (fun a =>
        a.event_id == event.id && a.person_id == some pid &&
        a.removed_at == none)).isSome = false
    · rw [if_pos hadmin]
      exact ⟨403, "Permission denied. Only event admins can update RSVPs.",
        rfl, by norm_num⟩
    · rw [if_neg hadmin, hr]
      dsimp only
      by_cases hek : rsvp.event_id ≠ event.id
      · rw [if_pos hek]
        exact ⟨400, "RSVP does not belong to this event", rfl, by norm_num⟩
      · rw [if_neg hek]
        have hinv : db.invitations.find? (fun i => i.event_id == event.id &&
            some i.household_id == rsvp.household_id) = none := by
          rcases hbad with hbad | hbad
          · exact absurd hbad hek
          · exact hbad
        rw [hinv]
        exact ⟨400, "Household is not invited to this event", rfl, by norm_num⟩

/-- Witness for C3: an authenticated admin targets an RSVP whose
household has no live invitation to the event; the route answers 400 and
the database is unchanged. -/
theorem update_rsvp_by_host_rejects_unauthorized_witness :
    ∃ code msg, updateRsvpByHostRoute 50
        ⟨[⟨1, "u1", "Party"⟩], [⟨1, 1, some 9, none, "organizer", none⟩], [],
          [⟨5, 1, 3, some 8, "no_response", none, none, 0, none, false⟩]⟩
        (some 9) "u1" 5 (some ⟨some "attending", none⟩) =
      (ApiResponse.error code msg,
        ⟨[⟨1, "u1", "Party"⟩], [⟨1, 1, some 9, none, "organizer", none⟩], [],
          [⟨5, 1, 3, some 8, "no_response", none, none, 0, none, false⟩]⟩) ∧
      400 ≤ code :=
  update_rsvp_by_host_rejects_unauthorized 50
    ⟨[⟨1, "u1", "Party"⟩], [⟨1, 1, some 9, none, "organizer", none⟩], [],
      [⟨5, 1, 3, some 8, "no_response", none, none, 0, none, false⟩]⟩
    (some 9) "u1" 5 (some ⟨some "attending", none⟩)
    ⟨1, "u1", "Party"⟩ ⟨5, 1, 3, some 8, "no_response", none, none, 0, none, false⟩
    rfl rfl (Or.inr rfl)

/-! ### BringFriendService (`src/app/services/bring_friend_service.py`) -/

/-- `BringFriendService.create_rsvp_for_friend` (bring_friend_service.py
lines 71-100): returns an existing `(event, person)` RSVP if there is
one; otherwise constructs one with `household_id=None` ("Friends don't
have household association") and stages it for insertion. -/
def BringFriendService.create_rsvp_for_friend (now next_id : Nat)
    (event : Event) (referred_person : Person) (rsvps : List RSVP) :
    RSVP × List RSVP :=
  match rsvps.find? (fun r =>
      r.event_id == event.id && r.person_id == referred_person.id) with
  | some existing => (existing, rsvps)
  | none =>
    let r : RSVP :=
      { id := next_id, event_id := event.id,
        person_id := referred_person.id, household_id := none,
        status := "no_response", responded_at := none, notes := none,
        updated_at := now, updated_by_person_id := none,
        updated_by_host := false }
    (r, rsvps ++ [r])

/-- C6 (divergence witness): the RSVP built for a brought friend carries
`household_id = None` as the claim states, but the `rsvps.household_id`
column is declared `nullable=False` (rsvp.py lines 14-16), so the row
fails the NOT NULL constraint and the commit inside `invite_friend`
cannot persist it. -/
theorem friend_rsvp_null_household_violates_schema :
    (BringFriendService.create_rsvp_for_friend 0 11 ⟨1, "u1", "Party"⟩
        ⟨7, "Amy", none, none⟩ []).1.household_id = none ∧
    rsvpRowInsertable (BringFriendService.create_rsvp_for_friend 0 11
        ⟨1, "u1", "Party"⟩ ⟨7, "Amy", none, none⟩ []).1 = false := by
  exact ⟨rfl, rfl⟩

/-! ### Short-token generation (`EventInvitation.generate_short_token`,
event_admin.py lines 119-141; `GuestReferral.generate_short_token`,
guest_referral.py lines 102-109)

`secrets.token_urlsafe` is modelled by the ambient stream
`Nat → String`; the uniqueness query against the short-token column is
modelled by the list of short tokens already present in the table. -/

/-- The bounded `for _ in range(max_attempts)` loop of
`EventInvitation.generate_short_token`: draw `stream k`, truncate to 10
characters, accept unless the table already contains it. -/
def evShortTokenAttempts (existing : List String) (stream : Nat → String) :
    Nat → Nat → Option String
  | 0, _ => none
  | n + 1, k =>
    let token := (stream k).take 10
    if existing.contains token then evShortTokenAttempts existing stream n (k + 1)
    else some token

/-- `EventInvitation.generate_short_token`: up to 5 collision-checked
attempts, then the fallback composite of the row id and a fresh random
draw. Always returns a token. -/
def EventInvitation.generate_short_token (inv_id : Nat)
    (existing : List String) (stream : Nat → String) : String :=
  match evShortTokenAttempts existing stream 5 0 with
  | some t => t
  | none => toString inv_id ++ "_" ++ stream 5

/-- The unbounded `while True` loop of
`GuestReferral.generate_short_token`, indexed by the number of
iterations it is allowed: `none` means the loop has not produced a token
within that many iterations (there is no fallback branch in the
source). -/
def grShortTokenLoop (existing : List String) (stream : Nat → String) :
    Nat → Nat → Option String
  | 0, _ => none
  | n + 1, k =>
    let token := (stream k).take 12
    if existing.contains token then grShortTokenLoop existing stream n (k + 1)
    else some token

/-- `GuestReferral.generate_short_token` run for `fuel` iterations of its
`while True` loop. -/
def GuestReferral.generate_short_token (fuel : Nat) (existing : List String)
    (stream : Nat → String) : Option String :=
  grShortTokenLoop existing stream fuel 0

/-- Under a perpetually colliding random stream the referral loop never
produces a token, at any iteration bound. -/
theorem grShortTokenLoop_const_collision :
    ∀ (n k : Nat), grShortTokenLoop ["t"] (fun _ => "t") n k = none := by
  intro n
  induction n with
  | zero => intro k; rfl
  | succ m ih =>
    intro k
    rw [grShortTokenLoop]
    have hc : (["t"] : List String).contains (("t" : String).take 12) = true := by
      decide
    simp only [hc, if_true]
    exact ih (k + 1)

/-- C7 counterexample: `GuestReferral.generate_short_token` does NOT
retry "at most a bounded number of attempts and then fall back": with a
short-token table containing `"t"` and a random stream that keeps
returning `"t"`, no iteration bound ever yields a token — the
`while True` loop in guest_referral.py lines 102-109 has no fallback. -/
theorem guest_referral_short_token_unbounded :
    ¬ ∃ N, (GuestReferral.generate_short_token N ["t"]
      (fun _ => "t")).isSome = true := by
  rintro ⟨N, hN⟩
  rw [GuestReferral.generate_short_token, grShortTokenLoop_const_collision]
    at hN
  simp at hN

/-- A token accepted by the bounded attempt loop is fresh. -/
theorem evShortTokenAttempts_fresh (existing : List String)
    (stream : Nat → String) :
    ∀ (n k : Nat) (t : String), evShortTokenAttempts existing stream n k =
      some t → existing.contains t = false := by
  intro n
  induction n with
  | zero => intro k t h; exact absurd h (by simp [evShortTokenAttempts])
  | succ m ih =>
    intro k t h
    rw [evShortTokenAttempts] at h
    by_cases hc : existing.contains ((stream k).take 10) = true
    · simp only [hc, if_true] at h
      exact ih (k + 1) t h
    · simp only [Bool.not_eq_true] at hc
      simp only [hc, Bool.false_eq_true, if_false, Option.some.injEq] at h
      rw [← h]
      exact hc

/-- If some allowed iteration draws a fresh candidate, the referral loop
terminates with a token. -/
theorem grShortTokenLoop_terminates (existing : List String)
    (stream : Nat → String) :
    ∀ (n j : Nat), (∃ k, j ≤ k ∧ k < j + n ∧
        existing.contains ((stream k).take 12) = false) →
      (grShortTokenLoop existing stream n j).isSome = true := by
  intro n
  induction n with
  | zero =>
    intro j h
    rcases h with ⟨k, hjk, hlt, _⟩
    omega
  | succ m ih =>
    intro j h
    rw [grShortTokenLoop]
    by_cases hc : existing.contains ((stream j).take 12) = true
    · simp only [hc, if_true]
      rcases h with ⟨k, hjk, hlt, hk⟩
      refine ih (j + 1) ⟨k, ?_, ?_, hk⟩
      · rcases Nat.eq_or_lt_of_le hjk with heq | hlt'
        · rw [← heq] at hk; rw [hk] at hc; exact absurd hc (by simp)
        · omega
      · omega
    · simp only [Bool.not_eq_true] at hc
      have hc' : (stream j).take 12 ∉ existing := by simpa using hc
      simp [hc']

/-- C7 as amended: the invitation-side generator always produces a usable
token — the accepted token is fresh, or after five collisions the
row-id composite is emitted — while the referral-side generator has no
attempt bound or fallback and produces a token exactly when its random
stream eventually draws a value not already in the short-token table
(within the allowed iterations). -/
theorem short_token_generation_behaviour (inv_id : Nat)
    (existing : List String) (stream : Nat → String) (fuel k : Nat) :
    (existing.contains (EventInvitation.generate_short_token inv_id existing
        stream) = false ∨
      EventInvitation.generate_short_token inv_id existing stream =
        toString inv_id ++ "_" ++ stream 5) ∧
    (k < fuel → existing.contains ((stream k).take 12) = false →
      (GuestReferral.generate_short_token fuel existing stream).isSome =
        true) := by
  constructor
  · unfold EventInvitation.generate_short_token
    cases hattempt : evShortTokenAttempts existing stream 5 0 with
    | some t =>
      exact Or.inl (evShortTokenAttempts_fresh existing stream 5 0 t hattempt)
    | none => exact Or.inr rfl
  · intro hlt hk
    exact grShortTokenLoop_terminates existing stream fuel 0
      ⟨k, Nat.zero_le k, by omega, hk⟩

/-- Witness for C7's amended statement: the first random draw collides
with the table, the second is fresh; the invitation generator yields a
fresh token and the referral loop terminates within 3 iterations. -/
theorem short_token_generation_behaviour_witness :
    ((["t"] : List String).contains (EventInvitation.generate_short_token 4
        ["t"] (fun n => if n = 0 then "t" else "w")) = false ∨
      EventInvitation.generate_short_token 4 ["t"]
          (fun n => if n = 0 then "t" else "w") =
        toString 4 ++ "_" ++ (fun n => if n = 0 then "t" else "w") 5) ∧
    (1 < 3 → (["t"] : List String).contains
        (((fun n => if n = 0 then "t" else "w") 1 : String).take 12) = false →
      (GuestReferral.generate_short_token 3 ["t"]
        (fun n => if n = 0 then "t" else "w")).isSome = true) :=
  short_token_generation_behaviour 4 ["t"] (fun n => if n = 0 then "t" else "w") 3 1

/-! ### Potluck claim engine (`src/app/models/potluck.py`,
`src/app/services/potluck_service.py`) -/

/-- A row of `potluck_claims`. -/
structure PotluckClaim where
  id : Nat
  potluck_item_id : Nat
  person_id : Nat
  household_id : Option Nat
  notes : Option String
  dietary_tags : Option (List String)
  claimed_at : Nat
  deriving Repr, DecidableEq

/-- A `potluck_items` row with its live `claims` relationship
materialized, plus the legacy single-claim fields carried on the item
itself. -/
structure PotluckItem where
  id : Nat
  event_id : Nat
  name : String
  quantity_needed : Option Nat
  is_suggested : Bool
  claimed_by_person_id : Option Nat
  claimed_at : Option Nat
  claimer_notes : Option String
  claimer_dietary_tags : Option (List String)
  claims : List PotluckClaim
  deriving Repr, DecidableEq

/-- `PotluckItem.is_claimed` (potluck.py lines 85-97): live claims first,
then the legacy single-claim field for suggested items. -/
def PotluckItem.is_claimed (item : PotluckItem) : Bool :=
  if item.claims.length > 0 then true
  else if item.is_suggested && pyTruthyNat item.claimed_by_person_id then true
  else false

/-- `PotluckItem.claim_count` (potluck.py lines 99-106): live count, with
the legacy single claim counted once when no live claims exist. -/
def PotluckItem.claim_count (item : PotluckItem) : Nat :=
  let count := item.claims.length
  if count = 0 && item.is_suggested && pyTruthyNat item.claimed_by_person_id
    then 1
  else count

/-- `PotluckItem.is_fully_claimed` (potluck.py lines 108-120): suggested
items are never full; a freeform item with falsy `quantity_needed`
falls back to `is_claimed`; otherwise the live claim count is compared
with `quantity_needed`. -/
def PotluckItem.is_fully_claimed (item : PotluckItem) : Bool :=
  if item.is_suggested then false
  else if pyTruthyNat item.quantity_needed = false then item.is_claimed
  else decide (item.quantity_needed.getD 0 ≤ item.claim_count)

/-- `PotluckService.claim_item` (potluck_service.py lines 97-132):
rejected with no claim created when the item is fully claimed; an
existing claim by the same person is returned as-is; otherwise a new
claim row is inserted. -/
def PotluckService.claim_item (now next_id : Nat) (item : PotluckItem)
    (person : Person) (household : Option Household)
    (notes : Option String) : Option PotluckClaim × PotluckItem :=
  if item.is_fully_claimed then (none, item)
  else
    match item.claims.find? (fun c => c.person_id == person.id) with
    | some existing_claim => (some existing_claim, item)
    | none =>
      let claim : PotluckClaim :=
        { id := next_id, potluck_item_id := item.id,
          person_id := person.id,
          household_id := household.map (fun h => h.id),
          notes := notes, dietary_tags := none, claimed_at := now }
      (some claim, { item with claims := item.claims ++ [claim] })

/-- C8: for a freeform item with positive `quantity_needed`,
`is_fully_claimed` holds exactly when the live claim count has reached
`quantity_needed`, and `claim_item` on a fully claimed item returns no
claim and leaves the item (hence its claim rows) unchanged. -/
theorem freeform_claim_capacity (item : PotluckItem) (person : Person)
    (household : Option Household) (notes : Option String) (now next_id q : Nat)
    (hfree : item.is_suggested = false) (hq : item.quantity_needed = some q)
    (hpos : 0 < q) :
    (item.is_fully_claimed = true ↔ q ≤ item.claims.length) ∧
    (item.is_fully_claimed = true →
      PotluckService.claim_item now next_id item person household notes =
        (none, item)) := by
  have hcount : item.claim_count = item.claims.length := by
    unfold PotluckItem.claim_count
    simp [hfree]
  have hfull : item.is_fully_claimed = decide (q ≤ item.claims.length) := by
    unfold PotluckItem.is_fully_claimed
    have htruthy : pyTruthyNat item.quantity_needed = true := by
      rw [hq]
      simp [pyTruthyNat]
      omega
    rw [hfree, htruthy, hcount, hq]
    simp
  constructor
  · rw [hfull]
    simp
  · intro hfc
    unfold PotluckService.claim_item
    rw [hfc]
    simp

/-- Witness for C8, the spec's own scenario: a freeform item with
`quantity_needed=1` already claimed by person A (id 3) is fully claimed,
and person B's (id 4) claim attempt returns no new claim. -/
theorem freeform_claim_capacity_witness :
    (PotluckItem.is_fully_claimed
        ⟨10, 1, "Rolls", some 1, false, none, none, none, none,
          [⟨1, 10, 3, none, none, none, 20⟩]⟩ = true ↔
      1 ≤ ([⟨1, 10, 3, none, none, none, 20⟩] :
        List PotluckClaim).length) ∧
    (PotluckItem.is_fully_claimed
        ⟨10, 1, "Rolls", some 1, false, none, none, none, none,
          [⟨1, 10, 3, none, none, none, 20⟩]⟩ = true →
      PotluckService.claim_item 30 2
          ⟨10, 1, "Rolls", some 1, false, none, none, none, none,
            [⟨1, 10, 3, none, none, none, 20⟩]⟩
          ⟨4, "Bob", none, none⟩ none none =
        (none, ⟨10, 1, "Rolls", some 1, false, none, none, none, none,
          [⟨1, 10, 3, none, none, none, 20⟩]⟩)) :=
  freeform_claim_capacity
    ⟨10, 1, "Rolls", some 1, false, none, none, none, none,
      [⟨1, 10, 3, none, none, none, 20⟩]⟩
    ⟨4, "Bob", none, none⟩ none none 30 2 1 rfl rfl (by decide)

/-- The tagged union returned by the claim-enumeration read path: a live
`PotluckClaim` row, or the claim-shaped record synthesized from the
item's legacy single-claim fields (`is_legacy: True` in the source
dict). -/
inductive ClaimRecord where
  | live (c : PotluckClaim)
  | legacy (person_id : Nat) (notes : Option String)
      (dietary_tags : List String) (claimed_at : Option Nat)
  deriving Repr, DecidableEq

/-- `PotluckItem.get_all_claims` (potluck.py lines 153-178): the live
claims, with the legacy single claim synthesized and prepended when the
item is suggested, carries a truthy `claimed_by_person_id` not already
present among the live claims' person ids, and that person still exists
in the `persons` table. -/
def PotluckItem.get_all_claims (persons : List Person)
    (item : PotluckItem) : List ClaimRecord :=
  let claims_list := item.claims
  if item.is_suggested && pyTruthyNat item.claimed_by_person_id then
    let p := item.claimed_by_person_id.getD 0
    let legacy_person_ids := claims_list.map (fun c => c.person_id)
    if legacy_person_ids.contains p = false then
      match persons.find? (fun person => person.id == p) with
      | some _ =>
        ClaimRecord.legacy p item.claimer_notes
            (item.claimer_dietary_tags.getD []) item.claimed_at ::
          claims_list.map ClaimRecord.live
      | none => claims_list.map ClaimRecord.live
    else claims_list.map ClaimRecord.live
  else claims_list.map ClaimRecord.live

/-- C9: on a suggested item with a (nonzero) legacy
`claimed_by_person_id` referencing an existing person, `get_all_claims`
prepends exactly one synthesized legacy record to the live claims —
unless a live claim by that person already exists, in which case the
result is exactly the live claims with nothing synthesized. -/
theorem get_all_claims_legacy_merge (persons : List Person)
    (item : PotluckItem) (p : Nat) (hsug : item.is_suggested = true)
    (hcbp : item.claimed_by_person_id = some p) (hp : p ≠ 0)
    (hperson : (persons.find? (fun person => person.id == p)).isSome = true) :
    ((item.claims.map (fun c => c.person_id)).contains p = true →
      item.get_all_claims persons = item.claims.map ClaimRecord.live) ∧
    ((item.claims.map (fun c => c.person_id)).contains p = false →
      item.get_all_claims persons =
        ClaimRecord.legacy p item.claimer_notes
            (item.claimer_dietary_tags.getD []) item.claimed_at ::
          item.claims.map ClaimRecord.live) := by
  have htruthy : pyTruthyNat item.claimed_by_person_id = true := by
    rw [hcbp]
    simpa [pyTruthyNat] using hp
  constructor
  · intro hin
    unfold PotluckItem.get_all_claims
    rw [hsug, htruthy]
    simp only [Bool.true_and, if_true, hcbp, Option.getD_some]
    rw [hin]
    simp
  · intro hout
    unfold PotluckItem.get_all_claims
    rw [hsug, htruthy]
    simp only [Bool.true_and, if_true, hcbp, Option.getD_some]
    rw [hout]
    simp only [if_true]
    rcases Option.isSome_iff_exists.mp hperson with ⟨person, hfind⟩
    rw [hfind]

/-- Witness for C9, the spec's own scenario: a legacy suggested item with
`claimed_by_person_id=7` and no live claims yields exactly one
synthesized claim for person 7 (and the no-duplication branch holds
vacuously). -/
theorem get_all_claims_legacy_merge_witness :
    ((([] : List PotluckClaim).map (fun c => c.person_id)).contains 7 =
        true →
      PotluckItem.get_all_claims [⟨7, "Amy", none, none⟩]
          ⟨10, 1, "Pie", none, true, some 7, some 15, some "gf", none, []⟩ =
        ([] : List PotluckClaim).map ClaimRecord.live) ∧
    ((([] : List PotluckClaim).map (fun c => c.person_id)).contains 7 =
        false →
      PotluckItem.get_all_claims [⟨7, "Amy", none, none⟩]
          ⟨10, 1, "Pie", none, true, some 7, some 15, some "gf", none, []⟩ =
        ClaimRecord.legacy 7 (some "gf") ((none : Option (List String)).getD [])
            (some 15) ::
          ([] : List PotluckClaim).map ClaimRecord.live) :=
  get_all_claims_legacy_merge [⟨7, "Amy", none, none⟩]
    ⟨10, 1, "Pie", none, true, some 7, some 15, some "gf", none, []⟩ 7
    rfl rfl (by decide) rfl

end HPP
